/-
Verification of the download-endpoint logic of the GhostDraco/Youtube
repository against its natural-language specification.

The repository contains two variant implementations of the same handler:
`src/api/download.js` (CommonJS) and an unnamed ES-module variant
(`src/unnamed/part_000`).  Definitions suffixed `V2` embed the unnamed
variant; unsuffixed definitions embed `src/api/download.js`.

JavaScript strings are modelled as Lean `String` (the inputs of interest
are ASCII, where JS UTF-16 code-unit indexing and Lean character indexing
agree); JS string truthiness is non-emptiness; absent JS values are
`Option.none`.  The JS string primitives used by the source
(`split` with a one-character separator, `trim`, `startsWith`, `substring`,
`includes`) are embedded as structurally recursive functions on the
character list of the string, so that every definition evaluates by kernel
reduction.
-/
import Mathlib

set_option maxHeartbeats 1000000
set_option maxRecDepth 100000

/-! ## JS string primitives -/

/-- Auxiliary loop of `jsSplit`: `acc` holds the characters of the current
field in reverse. -/
def jsSplitAux (sep : Char) : List Char → List Char → List String
  | [], acc => [String.mk acc.reverse]
  | c :: cs, acc =>
    if c = sep then String.mk acc.reverse :: jsSplitAux sep cs []
    else jsSplitAux sep cs (c :: acc)

/-- JS `String.prototype.split` with a one-character separator: a string with
`n` separator occurrences yields `n + 1` fields, empty fields kept.
In particular `jsSplit sep "" = [""]`, as in JS. -/
def jsSplit (sep : Char) (s : String) : List String :=
  jsSplitAux sep s.data []

/-- The whitespace class of JS `trim`/`\s`, restricted to ASCII. -/
def jsWsChar (c : Char) : Bool :=
  c = ' ' || c = '\t' || c = '\n' || c = '\r' || c = '\x0b' || c = '\x0c'

/-- JS `String.prototype.trim` (ASCII whitespace). -/
def jsTrim (s : String) : String :=
  String.mk (((s.data.dropWhile jsWsChar).reverse.dropWhile jsWsChar).reverse)

/-- JS `String.prototype.startsWith`. -/
def jsStartsWith (s pre : String) : Bool :=
  pre.data.isPrefixOf s.data

/-- JS `String.prototype.substring(0, n)`. -/
def jsSubstring (n : Nat) (s : String) : String :=
  String.mk (s.data.take n)

/-- JS `String.prototype.includes`: substring containment. -/
def jsIncludes (s pat : String) : Bool :=
  decide (pat.data <:+: s.data)

/-! ## Cookie-file parsing (download.js lines 42-80, part_000 lines 42-77) -/

/-- The three observable states of the cookie source file: the `existsSync`
check fails (`absent`), `readFileSync` throws (`unreadable`, caught by the
handler's try/catch), or the read yields `content`. -/
inductive CookieSource where
  | absent
  | unreadable
  | readable (content : String)

/-- Per-line parsing of download.js lines 53-69: trim the line, skip it when
empty or starting with `#` or `//`, split the trimmed line on tabs, and when
there are at least 7 fields emit `name=value` from fields 5 and 6 provided
both are non-empty (JS truthiness of strings). -/
def parseCookieLine? (line : String) : Option String :=
  let trimmedLine := jsTrim line
  if trimmedLine = "" ∨ jsStartsWith trimmedLine "#" ∨ jsStartsWith trimmedLine "//" then
    none
  else
    let parts := jsSplit '\t' trimmedLine
    if 7 ≤ parts.length then
      let cookieName := parts.getD 5 ""
      let cookieValue := parts.getD 6 ""
      if cookieName ≠ "" ∧ cookieValue ≠ "" then
        some (cookieName ++ "=" ++ cookieValue)
      else
        none
    else
      none

/-- The cookie token list produced by the download.js loop over
`cookiesContent.split('\n')` (lines 50-69). -/
def parseCookies (content : String) : List String :=
  (jsSplit '\n' content).filterMap parseCookieLine?

/-- Cookie loading of download.js lines 42-80: an absent or unreadable file
yields the empty header; otherwise the parsed tokens are joined with `"; "`
when there is at least one (lines 72-75), and the header stays `""` otherwise. -/
def cookieLoad : CookieSource → String
  | .absent => ""
  | .unreadable => ""
  | .readable content =>
    let cookies := parseCookies content
    if cookies.isEmpty then "" else String.intercalate "; " cookies

/-- Per-line parsing of part_000 lines 58-67: the filter keeps lines whose
trim is non-empty and that (untrimmed) do not start with `#` or `//`; the map
splits the untrimmed line on tabs and emits `parts[5]=parts[6]` whenever
there are at least 7 fields, with no non-emptiness check on name or value. -/
def cookieTokenV2? (line : String) : Option String :=
  if jsTrim line = "" ∨ jsStartsWith line "#" ∨ jsStartsWith line "//" then
    none
  else
    let parts := jsSplit '\t' line
    if 7 ≤ parts.length then
      some (parts.getD 5 "" ++ "=" ++ parts.getD 6 "")
    else
      none

/-- The cookie token list produced by part_000's filter/map/filter chain
(lines 55-67). -/
def parseCookiesV2 (content : String) : List String :=
  (jsSplit '\n' content).filterMap cookieTokenV2?

/-- Cookie loading of part_000 lines 42-77, same join as download.js. -/
def cookieLoadV2 : CookieSource → String
  | .absent => ""
  | .unreadable => ""
  | .readable content =>
    let cookies := parseCookiesV2 content
    if cookies.isEmpty then "" else String.intercalate "; " cookies

/-- Per-line parsing rule as worded by the specification (spec §4.1 and
claim C3): trim whitespace; skip the line if it is empty or begins with `#`
or `//`; split on tab characters; if the field count is at least 7, take
fields 5 and 6 as (name, value); emit the token iff both are non-empty. -/
def specCookieLine? (line : String) : Option String :=
  let t := jsTrim line
  if t = "" ∨ jsStartsWith t "#" ∨ jsStartsWith t "//" then
    none
  else
    let fields := jsSplit '\t' t
    if 7 ≤ fields.length then
      if fields.getD 5 "" ≠ "" ∧ fields.getD 6 "" ≠ "" then
        some (fields.getD 5 "" ++ "=" ++ fields.getD 6 "")
      else
        none
    else
      none

/-- The token list prescribed by the specification's parsing rule. -/
def specCookieParse (content : String) : List String :=
  (jsSplit '\n' content).filterMap specCookieLine?

/-- A cookie line is well formed when its trimmed form is not a comment,
splits on tabs into at least 7 fields, and has non-empty fields 5 and 6. -/
def wfCookieLine (l : String) : Prop :=
  jsStartsWith (jsTrim l) "#" = false ∧
  jsStartsWith (jsTrim l) "//" = false ∧
  7 ≤ (jsSplit '\t' (jsTrim l)).length ∧
  (jsSplit '\t' (jsTrim l)).getD 5 "" ≠ "" ∧
  (jsSplit '\t' (jsTrim l)).getD 6 "" ≠ ""

instance (l : String) : Decidable (wfCookieLine l) := by
  unfold wfCookieLine
  infer_instance

/-- The `name=value` token of a cookie line, read from its trimmed form. -/
def cookieTokenOf (l : String) : String :=
  (jsSplit '\t' (jsTrim l)).getD 5 "" ++ "=" ++ (jsSplit '\t' (jsTrim l)).getD 6 ""

lemma cookieLoad_readable (content : String) :
    cookieLoad (.readable content) = String.intercalate "; " (parseCookies content) := by
  show (if (parseCookies content).isEmpty then "" else _) = _
  rcases h : parseCookies content with _ | ⟨a, l⟩
  · rfl
  · simp

lemma cookieLoadV2_readable (content : String) :
    cookieLoadV2 (.readable content) = String.intercalate "; " (parseCookiesV2 content) := by
  show (if (parseCookiesV2 content).isEmpty then "" else _) = _
  rcases h : parseCookiesV2 content with _ | ⟨a, l⟩
  · rfl
  · simp

lemma wf_trim_ne_empty {l : String} (h : wfCookieLine l) : jsTrim l ≠ "" := by
  rcases h with ⟨-, -, h7, -, -⟩
  intro he
  rw [he] at h7
  exact absurd h7 (by decide)

lemma parseCookieLine_of_wf {l : String} (h : wfCookieLine l) :
    parseCookieLine? l = some (cookieTokenOf l) := by
  have hne : jsTrim l ≠ "" := wf_trim_ne_empty h
  rcases h with ⟨h1, h2, h7, h5, h6⟩
  unfold parseCookieLine?
  rw [if_neg (by simp [hne, h1, h2]), if_pos h7, if_pos (And.intro h5 h6)]
  rfl

lemma cookieTokenV2_of_wf {l : String} (ht : jsTrim l = l) (h : wfCookieLine l) :
    cookieTokenV2? l = some (cookieTokenOf l) := by
  have hne : jsTrim l ≠ "" := wf_trim_ne_empty h
  rcases h with ⟨h1, h2, h7, h5, h6⟩
  rw [ht] at h1 h2 h7
  unfold cookieTokenV2?
  rw [if_neg (by simp [hne, h1, h2]), if_pos h7]
  unfold cookieTokenOf
  rw [ht]

lemma filterMap_eq_map_of_wf (lines : List String) (h : ∀ l ∈ lines, wfCookieLine l) :
    lines.filterMap parseCookieLine? = lines.map cookieTokenOf := by
  induction lines with
  | nil => rfl
  | cons a as ih =>
    have ha := parseCookieLine_of_wf (h a (List.mem_cons_self a as))
    simp only [List.filterMap_cons, ha, List.map_cons,
      ih (fun l hl => h l (List.mem_cons_of_mem a hl))]

lemma filterMapV2_eq_map_of_wf (lines : List String)
    (h : ∀ l ∈ lines, jsTrim l = l ∧ wfCookieLine l) :
    lines.filterMap cookieTokenV2? = lines.map cookieTokenOf := by
  induction lines with
  | nil => rfl
  | cons a as ih =>
    have ha := cookieTokenV2_of_wf (h a (List.mem_cons_self a as)).1
      (h a (List.mem_cons_self a as)).2
    simp only [List.filterMap_cons, ha, List.map_cons,
      ih (fun l hl => h l (List.mem_cons_of_mem a hl))]

/-- C3: the per-line cookie parsing rule (trim; skip empty or `#`/`//` lines;
split on tabs; fields 5 and 6 as name/value; emit iff both non-empty) is
implemented exactly by download.js, while part_000 applies the comment check
and the tab split to the untrimmed line and emits a token from any line with
at least 7 fields even when name or value is empty.  First conjunct:
download.js parsing coincides with the rule; second conjunct: on a
whitespace-clean non-comment line with at least 7 fields, part_000 emits
`fields[5]=fields[6]` with no non-emptiness check. -/
theorem c3_amended :
    (∀ content, parseCookies content = specCookieParse content)
    ∧ (∀ l, jsTrim l = l → l ≠ "" →
        jsStartsWith l "#" = false → jsStartsWith l "//" = false →
        7 ≤ (jsSplit '\t' l).length →
        cookieTokenV2? l
          = some ((jsSplit '\t' l).getD 5 "" ++ "=" ++ (jsSplit '\t' l).getD 6 "")) := by
  constructor
  · intro content
    rfl
  · intro l ht hne h1 h2 h7
    unfold cookieTokenV2?
    rw [if_neg (by simp [ht, hne, h1, h2]), if_pos h7]

/-- C3 counterexample: on the single line `d⇥f⇥p⇥s⇥e⇥⇥v` (7 tab-separated
fields, empty name at index 5), the claimed rule emits nothing, download.js
emits nothing, but part_000 emits the token `=v`. -/
theorem c3_counterexample :
    specCookieParse "d\tf\tp\ts\te\t\tv" = []
    ∧ parseCookies "d\tf\tp\ts\te\t\tv" = []
    ∧ parseCookiesV2 "d\tf\tp\ts\te\t\tv" = ["=v"] := by
  decide

/-- Witness for `c3_amended` at concrete inputs. -/
theorem c3_witness :
    parseCookies "x" = specCookieParse "x"
    ∧ cookieTokenV2? "a\tb\tc\td\te\t\tv" = some "=v" :=
  ⟨c3_amended.1 "x",
   (c3_amended.2 "a\tb\tc\td\te\t\tv" (by decide) (by decide) (by decide) (by decide)
     (by decide)).trans (by decide)⟩

/-- C4: cookie loading is a total function (the embedding of the
existsSync/try-catch structure), and the resulting header value is `""`
whenever the file is absent, whenever the read fails, and whenever parsing
yields zero tokens — in both implementations. -/
theorem c4_confirmed :
    cookieLoad .absent = "" ∧ cookieLoad .unreadable = ""
    ∧ cookieLoadV2 .absent = "" ∧ cookieLoadV2 .unreadable = ""
    ∧ (∀ c, parseCookies c = [] → cookieLoad (.readable c) = "")
    ∧ (∀ c, parseCookiesV2 c = [] → cookieLoadV2 (.readable c) = "") := by
  refine ⟨rfl, rfl, rfl, rfl, ?_, ?_⟩
  · intro c h
    rw [cookieLoad_readable, h]
    rfl
  · intro c h
    rw [cookieLoadV2_readable, h]
    rfl

/-- Witness for `c4_confirmed`: an empty file and a comment-only file. -/
theorem c4_witness :
    cookieLoad (.readable "# comment only\n") = ""
    ∧ cookieLoadV2 (.readable "") = "" :=
  ⟨c4_confirmed.2.2.2.2.1 _ (by decide), c4_confirmed.2.2.2.2.2 _ (by decide)⟩

/-- C5 (amended): for every cookie file all of whose lines are well formed
(at least 7 tab-separated fields on the trimmed line, non-empty name and
value at indices 5 and 6) AND whose trimmed lines do not begin with `#` or
`//`, the header produced by download.js is exactly the `"; "`-join of the
`name=value` tokens in source-line order; part_000 produces the same header
when additionally no line carries surrounding whitespace. -/
theorem c5_amended (content : String)
    (h : ∀ l ∈ jsSplit '\n' content, wfCookieLine l) :
    cookieLoad (.readable content)
      = String.intercalate "; " ((jsSplit '\n' content).map cookieTokenOf)
    ∧ ((∀ l ∈ jsSplit '\n' content, jsTrim l = l) →
       cookieLoadV2 (.readable content)
         = String.intercalate "; " ((jsSplit '\n' content).map cookieTokenOf)) := by
  constructor
  · rw [cookieLoad_readable]
    unfold parseCookies
    rw [filterMap_eq_map_of_wf _ h]
  · intro ht
    rw [cookieLoadV2_readable]
    unfold parseCookiesV2
    rw [filterMapV2_eq_map_of_wf _ (fun l hl => ⟨ht l hl, h l hl⟩)]

/-- C5 counterexample: a one-line file with 7 tab-separated fields and
non-empty name `n` and value `v` — satisfying the claim's hypothesis as
stated — whose produced header is `""` in both implementations (the line
begins with `#`, so it is skipped as a comment), hence does not contain
`n=v`. -/
theorem c5_counterexample :
    7 ≤ (jsSplit '\t' "#a\tb\tc\td\te\tn\tv").length
    ∧ (jsSplit '\t' "#a\tb\tc\td\te\tn\tv").getD 5 "" = "n"
    ∧ (jsSplit '\t' "#a\tb\tc\td\te\tn\tv").getD 6 "" = "v"
    ∧ cookieLoad (.readable "#a\tb\tc\td\te\tn\tv") = ""
    ∧ cookieLoadV2 (.readable "#a\tb\tc\td\te\tn\tv") = "" := by
  decide

/-- Witness for `c5_amended` on a two-line file: tokens joined with `"; "`
in source order. -/
theorem c5_witness :
    cookieLoad (.readable "a\tb\tc\td\te\tn1\tv1\nf\tg\th\ti\tj\tn2\tv2") = "n1=v1; n2=v2"
    ∧ cookieLoadV2 (.readable "a\tb\tc\td\te\tn1\tv1\nf\tg\th\ti\tj\tn2\tv2")
        = "n1=v1; n2=v2" :=
  ⟨((c5_amended _ (by decide)).1).trans (by decide),
   ((c5_amended _ (by decide)).2 (by decide)).trans (by decide)⟩

/-! ## Variant selection (download.js lines 97-113, part_000 lines 93-112) -/

/-- The fields of a ytdl-core format descriptor that the two handlers
inspect: container name, presence of video and audio components, the
`height` resolution indicator (absent for audio-only formats) and the
`contentLength` string (absent or possibly empty). -/
structure Format where
  container : String
  hasVideo : Bool
  hasAudio : Bool
  height : Option Nat
  contentLength : Option String
deriving DecidableEq, Repr

/-- `format.height || 0` of part_000 line 107. -/
def heightD (f : Format) : Nat :=
  f.height.getD 0

/-- Modelled from the spec: `ytdl.filterFormats(info.formats, 'videoandaudio')`
(download.js line 97) is a call into the external ytdl-core library, which is
not part of this repository; per spec §4.2 it filters to the variants where
both video and audio components are present, preserving encounter order. -/
def filterFormatsVideoAndAudio (formats : List Format) : List Format :=
  formats.filter (fun f => f.hasVideo && f.hasAudio)

/-- The combined (video+audio) variants of a set, as worded by the claims. -/
def combinedOf (formats : List Format) : List Format :=
  formats.filter (fun f => f.hasVideo && f.hasAudio)

/-- The variants with a video component, as worded by the claims. -/
def videoOnlyOf (formats : List Format) : List Format :=
  formats.filter (fun f => f.hasVideo)

/-- Format selection of download.js lines 97-113: filter to combined
formats; if none, fall back to the formats with video (`format.hasVideo`)
and take the first, signalling no-format when that is also empty; otherwise
take the first filtered combined format (`formats[0]`). -/
def selectFormat (formats : List Format) : Option Format :=
  let combined := filterFormatsVideoAndAudio formats
  if combined.isEmpty then
    let videoFormats := formats.filter (fun f => f.hasVideo)
    videoFormats.head?
  else
    combined.head?

/-- A JSON-ish response: HTTP status, `error` field, optional `note` and
`details` fields. -/
structure JsonResponse where
  status : Nat
  error : String
  note : Option String
  details : Option String
deriving DecidableEq, Repr

/-- The selection step of download.js including the 400 response of lines
103-106 when no format with video exists. -/
def selectionResponse (formats : List Format) : Except JsonResponse Format :=
  match selectFormat formats with
  | none => .error ⟨400, "No downloadable format available for this video", none, none⟩
  | some f => .ok f

/-- The mp4 combined filter of part_000 lines 93-97:
`format.container === 'mp4' && format.hasVideo && format.hasAudio`. -/
def mp4Combined (formats : List Format) : List Format :=
  formats.filter (fun f => f.container == "mp4" && f.hasVideo && f.hasAudio)

/-- One insertion step of the stable sort: the inserted element goes before
the first element of strictly greater height indicator. -/
def stableInsert (a : Format) : List Format → List Format
  | [] => [a]
  | b :: bs => if heightD b < heightD a then b :: stableInsert a bs else a :: b :: bs

/-- Models `formats.sort((a, b) => getHeight(a) - getHeight(b))` of part_000
lines 106-109: ES2019 `Array.prototype.sort` is stable, and for the total
preorder induced by this comparator the stable sorted order is unique, so it
is computed by stable insertion sort. -/
def sortByHeight : List Format → List Format
  | [] => []
  | a :: as => stableInsert a (sortByHeight as)

/-- Format selection of part_000 lines 93-112: keep only mp4 formats with
both video and audio, answer no-format when none remain (lines 99-103),
otherwise sort by the height indicator ascending and take the first. -/
def selectFormatV2 (formats : List Format) : Option Format :=
  let fs := mp4Combined formats
  if fs.isEmpty then none else (sortByHeight fs).head?

/-- The selection step of part_000 including the 400 response of lines
99-103. -/
def selectionResponseV2 (formats : List Format) : Except JsonResponse Format :=
  match selectFormatV2 formats with
  | none => .error ⟨400, "No MP4 format available for this video", none, none⟩
  | some f => .ok f

/-- The first-encountered element of minimal height indicator. -/
def firstMin : List Format → Option Format
  | [] => none
  | a :: as =>
    match firstMin as with
    | none => some a
    | some m => if heightD a ≤ heightD m then some a else some m

lemma firstMin_eq_none {l : List Format} : firstMin l = none ↔ l = [] := by
  cases l with
  | nil => simp [firstMin]
  | cons a as =>
    simp only [firstMin]
    cases firstMin as with
    | none => simp
    | some m =>
      by_cases h : heightD a ≤ heightD m <;> simp [h]

lemma stableInsert_head (a : Format) (l : List Format) :
    (stableInsert a l).head?
      = some (match l with
              | [] => a
              | b :: _ => if heightD b < heightD a then b else a) := by
  cases l with
  | nil => rfl
  | cons b bs =>
    by_cases h : heightD b < heightD a <;> simp [stableInsert, h]

lemma stableInsert_ne_nil (a : Format) (l : List Format) : stableInsert a l ≠ [] := by
  cases l with
  | nil => simp [stableInsert]
  | cons b bs =>
    by_cases h : heightD b < heightD a <;> simp [stableInsert, h]

lemma sortByHeight_eq_nil {l : List Format} : sortByHeight l = [] ↔ l = [] := by
  cases l with
  | nil => simp [sortByHeight]
  | cons a as =>
    simp only [sortByHeight]
    exact ⟨fun h => absurd h (stableInsert_ne_nil a _), fun h => absurd h (by simp)⟩

lemma sortByHeight_head (l : List Format) : (sortByHeight l).head? = firstMin l := by
  induction l with
  | nil => rfl
  | cons a as ih =>
    show (stableInsert a (sortByHeight as)).head? = firstMin (a :: as)
    rw [stableInsert_head]
    cases hs : sortByHeight as with
    | nil =>
      have : as = [] := sortByHeight_eq_nil.mp hs
      subst this
      rfl
    | cons b t =>
      rw [hs] at ih
      simp only [List.head?_cons] at ih
      show some (if heightD b < heightD a then b else a) = firstMin (a :: as)
      simp only [firstMin, ← ih]
      by_cases h : heightD a ≤ heightD b
      · rw [if_neg (by omega), if_pos h]
      · rw [if_pos (by omega), if_neg h]

lemma firstMin_spec {l : List Format} {f : Format} (h : firstMin l = some f) :
    ∃ pre post, l = pre ++ f :: post
      ∧ (∀ g ∈ l, heightD f ≤ heightD g)
      ∧ (∀ g ∈ pre, heightD f < heightD g) := by
  induction l generalizing f with
  | nil => exact absurd h (by simp [firstMin])
  | cons a as ih =>
    simp only [firstMin] at h
    cases hm : firstMin as with
    | none =>
      rw [hm] at h
      change some a = some f at h
      have hnil : as = [] := firstMin_eq_none.mp hm
      subst hnil
      obtain rfl : a = f := by simpa using h
      exact ⟨[], [], rfl, by simp, by simp⟩
    | some m =>
      rw [hm] at h
      change (if heightD a ≤ heightD m then some a else some m) = some f at h
      obtain ⟨pre, post, hl, hmin, hpre⟩ := ih hm
      by_cases hle : heightD a ≤ heightD m
      · rw [if_pos hle] at h
        obtain rfl : a = f := by simpa using h
        refine ⟨[], as, rfl, ?_, by simp⟩
        intro g hg
        rcases List.mem_cons.mp hg with rfl | hg
        · exact Nat.le_refl _
        · exact Nat.le_trans hle (hmin g hg)
      · rw [if_neg hle] at h
        obtain rfl : m = f := by simpa using h
        refine ⟨a :: pre, post, by rw [hl]; simp, ?_, ?_⟩
        · intro g hg
          rcases List.mem_cons.mp hg with rfl | hg
          · exact Nat.le_of_lt (Nat.lt_of_not_le hle)
          · exact hmin g hg
        · intro g hg
          rcases List.mem_cons.mp hg with rfl | hg
          · exact Nat.lt_of_not_le hle
          · exact hpre g hg

lemma selectFormat_eq (formats : List Format) :
    selectFormat formats
      = if combinedOf formats = [] then (videoOnlyOf formats).head?
        else (combinedOf formats).head? := by
  simp only [selectFormat, filterFormatsVideoAndAudio, combinedOf, videoOnlyOf]
  rcases h : formats.filter (fun f => f.hasVideo && f.hasAudio) with _ | ⟨a, l⟩
  · rw [h]
    simp
  · rw [h]
    simp

lemma selectFormatV2_eq (formats : List Format) :
    selectFormatV2 formats
      = if mp4Combined formats = [] then none
        else firstMin (mp4Combined formats) := by
  simp only [selectFormatV2]
  rcases h : mp4Combined formats with _ | ⟨a, l⟩
  · simp
  · simp [sortByHeight_head]

/-- C1 (amended): download.js follows the exact two-tier fallback — if the
combined (video+audio) filter is non-empty the selected format is drawn from
it (namely its first element); if it is empty, selection is the first format
with a video component; if that is also empty, the handler answers 400
("no usable variant").  part_000, by contrast, has a single tier restricted
to mp4 combined formats and no video-only fallback: its selection is empty
exactly when no mp4 combined format exists. -/
theorem c1_amended (formats : List Format) :
    (combinedOf formats ≠ [] →
      ∃ f, selectFormat formats = some f ∧ f ∈ combinedOf formats)
    ∧ (combinedOf formats = [] → selectFormat formats = (videoOnlyOf formats).head?)
    ∧ (combinedOf formats = [] → videoOnlyOf formats = [] →
        ∃ r, selectionResponse formats = .error r ∧ r.status = 400)
    ∧ (selectFormatV2 formats = none ↔ mp4Combined formats = []) := by
  refine ⟨?_, ?_, ?_, ?_⟩
  · intro h
    rw [selectFormat_eq, if_neg h]
    rcases hc : combinedOf formats with _ | ⟨a, l⟩
    · exact absurd hc h
    · exact ⟨a, rfl, List.mem_cons_self a l⟩
  · intro h
    rw [selectFormat_eq, if_pos h]
  · intro h1 h2
    have hsel : selectFormat formats = none := by
      rw [selectFormat_eq, if_pos h1, h2]
      rfl
    refine ⟨⟨400, "No downloadable format available for this video", none, none⟩, ?_, rfl⟩
    unfold selectionResponse
    rw [hsel]
  · rw [selectFormatV2_eq]
    constructor
    · intro hn
      by_contra hne
      rw [if_neg hne] at hn
      exact hne (firstMin_eq_none.mp hn)
    · intro h
      rw [if_pos h]

/-- A combined (video+audio) format in a non-mp4 container. -/
def webmFmt : Format := ⟨"webm", true, true, some 360, some "100"⟩

/-- A video-only format. -/
def videoOnlyFmt : Format := ⟨"webm", true, false, some 240, none⟩

/-- C1 counterexample: the set `[webmFmt]` contains a variant with both
video and audio components, yet part_000's selection signals no-format and
answers 400 — there is no two-tier fallback (nor even a first tier accepting
non-mp4 combined variants) in part_000. -/
theorem c1_counterexample :
    webmFmt.hasVideo = true ∧ webmFmt.hasAudio = true
    ∧ combinedOf [webmFmt] = [webmFmt]
    ∧ selectFormatV2 [webmFmt] = none
    ∧ selectionResponseV2 [webmFmt]
        = .error ⟨400, "No MP4 format available for this video", none, none⟩ :=
  ⟨rfl, rfl, rfl, rfl, rfl⟩

/-- Witness for `c1_amended` at concrete variant sets exercising each tier. -/
theorem c1_witness :
    (∃ f, selectFormat [webmFmt] = some f ∧ f ∈ combinedOf [webmFmt])
    ∧ selectFormat [videoOnlyFmt] = (videoOnlyOf [videoOnlyFmt]).head?
    ∧ (∃ r, selectionResponse [] = .error r ∧ r.status = 400) :=
  ⟨(c1_amended [webmFmt]).1 (by decide),
   (c1_amended [videoOnlyFmt]).2.1 rfl,
   (c1_amended []).2.2.1 rfl rfl⟩

/-- C2 (amended): when combined variants exist, download.js returns the
first-encountered combined variant of the input order — not the one of
minimal resolution indicator; part_000 returns, among the mp4 combined
variants (when any exist), the first-encountered variant of minimal height
indicator.  Both selectors are functions of the variant list, hence
deterministic. -/
theorem c2_amended (formats : List Format) :
    (combinedOf formats ≠ [] → selectFormat formats = (combinedOf formats).head?)
    ∧ (mp4Combined formats ≠ [] →
        ∃ f pre post, selectFormatV2 formats = some f
          ∧ mp4Combined formats = pre ++ f :: post
          ∧ (∀ g ∈ mp4Combined formats, heightD f ≤ heightD g)
          ∧ (∀ g ∈ pre, heightD f < heightD g)) := by
  constructor
  · intro h
    rw [selectFormat_eq, if_neg h]
  · intro h
    have hv : selectFormatV2 formats = firstMin (mp4Combined formats) := by
      rw [selectFormatV2_eq, if_neg h]
    rcases hf : firstMin (mp4Combined formats) with _ | f
    · exact absurd (firstMin_eq_none.mp hf) h
    · obtain ⟨pre, post, hl, hmin, hpre⟩ := firstMin_spec hf
      exact ⟨f, pre, post, by rw [hv, hf], hl, hmin, hpre⟩

/-- An mp4 combined format of height 720. -/
def fmt720 : Format := ⟨"mp4", true, true, some 720, some "2000"⟩

/-- An mp4 combined format of height 360. -/
def fmt360 : Format := ⟨"mp4", true, true, some 360, some "1000"⟩

/-- C2 counterexample: in the set `[fmt720, fmt360]` both variants are
combined and `fmt360` has the strictly smaller resolution indicator, yet
download.js selects `fmt720`, the first-encountered one — selection does not
return the minimum-resolution combined variant. -/
theorem c2_counterexample :
    fmt360 ∈ combinedOf [fmt720, fmt360]
    ∧ heightD fmt360 < heightD fmt720
    ∧ selectFormat [fmt720, fmt360] = some fmt720 := by
  decide

/-- Witness for `c2_amended` at a concrete two-element variant set. -/
theorem c2_witness :
    selectFormat [fmt720, fmt360] = (combinedOf [fmt720, fmt360]).head?
    ∧ (∃ f pre post, selectFormatV2 [fmt720, fmt360] = some f
        ∧ mp4Combined [fmt720, fmt360] = pre ++ f :: post
        ∧ (∀ g ∈ mp4Combined [fmt720, fmt360], heightD f ≤ heightD g)
        ∧ (∀ g ∈ pre, heightD f < heightD g)) :=
  ⟨(c2_amended [fmt720, fmt360]).1 (by decide),
   (c2_amended [fmt720, fmt360]).2 (by decide)⟩

/-! ## Success-path response headers (download.js lines 116-148, part_000 lines 115-140) -/

/-- One pass of `.replace(/\s+/g, '_')` (download.js line 118): each maximal
run of whitespace characters becomes a single underscore. -/
def collapseWs (l : List Char) : List Char :=
  match l with
  | [] => []
  | c :: cs =>
    if jsWsChar c then '_' :: collapseWs (cs.dropWhile jsWsChar)
    else c :: collapseWs cs
termination_by l.length
decreasing_by
  · simp only [List.length_cons]
    exact Nat.lt_succ_of_le (List.dropWhile_sublist jsWsChar).length_le
  · simp only [List.length_cons]
    exact Nat.lt_succ_of_le (Nat.le_refl _)

/-- The character class of the regex `[<>:"/\\|?*]` (download.js line 117). -/
def isFnBadChar (c : Char) : Bool :=
  c = '<' || c = '>' || c = ':' || c = '\"' || c = '/' || c = '\\' ||
    c = '|' || c = '?' || c = '*'

/-- The safe-filename derivation of download.js lines 116-119: replace the
disallowed characters by `_`, collapse whitespace runs to `_`, truncate to
100 characters, and default to `video` when the result is empty. -/
def safeFilename (title : String) : String :=
  let s1 := title.data.map (fun c => if isFnBadChar c then '_' else c)
  let s2 := String.mk (collapseWs s1)
  let s3 := jsSubstring 100 s2
  if s3 = "" then "video" else s3

/-- ASCII alphanumeric test of the regex `[^a-z0-9]` with the `i` flag
(part_000 line 116). -/
def isAsciiAlnum (c : Char) : Bool :=
  (97 ≤ c.toNat && c.toNat ≤ 122) || (65 ≤ c.toNat && c.toNat ≤ 90) ||
    (48 ≤ c.toNat && c.toNat ≤ 57)

/-- The safe-filename derivation of part_000 lines 115-117: replace every
non-alphanumeric character by `_`, truncate to 50 characters, default to
`video`. -/
def safeFilenameV2 (title : String) : String :=
  let s1 := String.mk (title.data.map (fun c => if isAsciiAlnum c then c else '_'))
  let s2 := jsSubstring 50 s1
  if s2 = "" then "video" else s2

/-- An observable action on the outbound response during the success path:
setting a header, or the start of body-byte transfer (`videoStream.pipe(res)`). -/
inductive RespEvent where
  | setHeader (name value : String)
  | writeBody
deriving DecidableEq, Repr

/-- JS truthiness of `selectedFormat.contentLength`. -/
def clTruthy (f : Format) : Bool :=
  match f.contentLength with
  | none => false
  | some s => !(s == "")

/-- The ordered response actions of the download.js success path, lines
116-148: Content-Type then Content-Disposition, a Content-Length header only
when `selectedFormat.contentLength` is truthy (lines 125-127), then the body
stream. -/
def successEvents (title : String) (fmt : Format) : List RespEvent :=
  [.setHeader "Content-Type" "video/mp4",
   .setHeader "Content-Disposition"
     ("attachment; filename=\"" ++ safeFilename title ++ ".mp4\"")]
  ++ (if clTruthy fmt then
        [.setHeader "Content-Length" (fmt.contentLength.getD "")]
      else [])
  ++ [.writeBody]

/-- The ordered response actions of the part_000 success path, lines
115-140: Content-Length is always set, with the literal string `unknown`
when `selectedFormat.contentLength` is not truthy (line 121). -/
def successEventsV2 (title : String) (fmt : Format) : List RespEvent :=
  [.setHeader "Content-Type" "video/mp4",
   .setHeader "Content-Disposition"
     ("attachment; filename=\"" ++ safeFilenameV2 title ++ ".mp4\""),
   .setHeader "Content-Length"
     (if clTruthy fmt then fmt.contentLength.getD "" else "unknown"),
   .writeBody]

/-- C6 (amended): on the success path both implementations emit every header
strictly before the body transfer begins (the body event is last, and every
earlier event is a header), including Content-Type and Content-Disposition;
download.js sets Content-Length iff the selected format's content length is
truthy, while part_000 always sets Content-Length, with the literal value
`unknown` when the content length is unknown. -/
theorem c6_amended (title : String) (fmt : Format) :
    (successEvents title fmt).getLast? = some .writeBody
    ∧ (∀ e ∈ (successEvents title fmt).dropLast, e ≠ .writeBody)
    ∧ (∃ v, RespEvent.setHeader "Content-Type" v ∈ successEvents title fmt)
    ∧ (∃ v, RespEvent.setHeader "Content-Disposition" v ∈ successEvents title fmt)
    ∧ ((∃ v, RespEvent.setHeader "Content-Length" v ∈ successEvents title fmt)
        ↔ clTruthy fmt = true)
    ∧ (successEventsV2 title fmt).getLast? = some .writeBody
    ∧ (∀ e ∈ (successEventsV2 title fmt).dropLast, e ≠ .writeBody)
    ∧ (∃ v, RespEvent.setHeader "Content-Length" v ∈ successEventsV2 title fmt)
    ∧ (clTruthy fmt = false →
        RespEvent.setHeader "Content-Length" "unknown" ∈ successEventsV2 title fmt) := by
  cases hcl : clTruthy fmt
  · refine ⟨?_, ?_, ?_, ?_, ?_, ?_, ?_, ?_, ?_⟩ <;>
      simp [successEvents, successEventsV2, hcl]
  · refine ⟨?_, ?_, ?_, ?_, ?_, ?_, ?_, ?_, ?_⟩ <;>
      simp [successEvents, successEventsV2, hcl]

/-- An mp4 combined format with unknown content length. -/
def fmtNoCL : Format := ⟨"mp4", true, true, some 360, none⟩

/-- C6 counterexample: for a selected format whose content length is
unknown, part_000 still sets a Content-Length header — with the literal
value `unknown` — contradicting the claim that none is set. -/
theorem c6_counterexample :
    fmtNoCL.contentLength = none
    ∧ RespEvent.setHeader "Content-Length" "unknown" ∈ successEventsV2 "title" fmtNoCL := by
  decide

/-- Witness for `c6_amended` at a concrete title and format. -/
theorem c6_witness :
    RespEvent.setHeader "Content-Length" "unknown" ∈ successEventsV2 "t" fmtNoCL
    ∧ (successEvents "t" fmtNoCL).getLast? = some .writeBody :=
  ⟨(c6_amended "t" fmtNoCL).2.2.2.2.2.2.2.2 (by decide), (c6_amended "t" fmtNoCL).1⟩

/-! ## Error classification (download.js lines 140-145 and 161-190,
part_000 lines 132-137 and 147-166) -/

/-- The catch-block classification of download.js lines 161-190: substring
tests on `error.message` choose, in order, 403 for private/unavailable, 403
for cookies/authentication, 400 for format (full message as `details`), and
otherwise 500 with `error.message.substring(0, 100)` as `details`. -/
def catchResponse (msg : String) : JsonResponse :=
  if jsIncludes msg "private" || jsIncludes msg "unavailable" then
    ⟨403, "Video is private or unavailable",
     some "If testing private videos, ensure cookies.txt contains valid authentication cookies",
     none⟩
  else if jsIncludes msg "cookies" || jsIncludes msg "authentication" then
    ⟨403, "Authentication required",
     some "Check cookies.txt file for valid YouTube session cookies", none⟩
  else if jsIncludes msg "format" then
    ⟨400, "No supported format available", none, some msg⟩
  else
    ⟨500, "Failed to process download request", none, some (jsSubstring 100 msg)⟩

/-- The catch-block classification of part_000 lines 147-166: 403 for
private/unavailable, 403 for cookies, otherwise 500 with the full message as
`details`. -/
def catchResponseV2 (msg : String) : JsonResponse :=
  if jsIncludes msg "private" || jsIncludes msg "unavailable" then
    ⟨403, "Video unavailable. This might require authentication.", none, none⟩
  else if jsIncludes msg "cookies" then
    ⟨403, "Authentication required. Check cookies.txt file.", none, none⟩
  else
    ⟨500, "Failed to process download request", none, some msg⟩

/-- The `videoStream.on('error', ...)` listener of download.js lines
140-145: a structured 500 JSON response is produced only when response
headers have not been sent; otherwise nothing further is written. -/
def onStreamError (headersSent : Bool) (msg : String) : Option JsonResponse :=
  if headersSent then none
  else some ⟨500, "Stream failed", none, some msg⟩

/-- The `videoStream.on('error', ...)` listener of part_000 lines 132-137. -/
def onStreamErrorV2 (headersSent : Bool) : Option JsonResponse :=
  if headersSent then none
  else some ⟨500, "Stream failed", none, none⟩

/-- C8: once response headers are committed (`res.headersSent` is true), the
stream-error listener emits no structured JSON payload in either
implementation; when headers are not yet sent it emits a 500 JSON response. -/
theorem c8_confirmed (msg : String) :
    onStreamError true msg = none
    ∧ onStreamErrorV2 true = none
    ∧ (∃ r, onStreamError false msg = some r ∧ r.status = 500)
    ∧ (∃ r, onStreamErrorV2 false = some r ∧ r.status = 500) :=
  ⟨rfl, rfl, ⟨⟨500, "Stream failed", none, some msg⟩, rfl, rfl⟩,
   ⟨⟨500, "Stream failed", none, none⟩, rfl, rfl⟩⟩

/-- C10: every caught error whose message contains the substring `private`
or `unavailable` is answered with HTTP 403 by both implementations,
whatever else the message contains — the substring test is the first branch
of the catch block, ahead of the generic 500 fallback. -/
theorem c10_confirmed (msg : String)
    (h : jsIncludes msg "private" = true ∨ jsIncludes msg "unavailable" = true) :
    (catchResponse msg).status = 403 ∧ (catchResponseV2 msg).status = 403 := by
  have hc : (jsIncludes msg "private" || jsIncludes msg "unavailable") = true := by
    rcases h with h | h <;> simp [h]
  constructor
  · unfold catchResponse
    rw [hc]
    rfl
  · unfold catchResponseV2
    rw [hc]
    rfl

/-- Witness for `c10_confirmed`: a message mentioning `private` (and also
`format`, showing the 403 branch wins over later branches). -/
theorem c10_witness :
    (catchResponse "private format error").status = 403
    ∧ (catchResponseV2 "private format error").status = 403 :=
  c10_confirmed _ (Or.inl (by decide))

lemma jsIncludes_false_of_missing_char {s pat : String} {c : Char}
    (hc : c ∈ pat.data) (hs : c ∉ s.data) : jsIncludes s pat = false := by
  unfold jsIncludes
  rw [decide_eq_false_iff_not]
  intro hinf
  exact hs (hinf.subset hc)

lemma jsIncludes_append_right (s t : String) : jsIncludes (s ++ t) s = true := by
  unfold jsIncludes
  rw [decide_eq_true_eq]
  rw [String.data_append]
  exact ⟨[], t.data, by simp⟩

/-- C7 counterexample: the diagnostic detail strings emitted by download.js
are not length-capped by any bound — for every candidate bound `B` there is
an error message (one reaching the 400 `format` branch, which copies
`error.message` verbatim into `details`) whose emitted detail string is
longer than `B`. -/
theorem c7_counterexample :
    ¬ ∃ B : Nat, ∀ msg : String,
        ((catchResponse msg).details.getD "").length ≤ B := by
  rintro ⟨B, hB⟩
  set m : String := "format" ++ String.mk (List.replicate (B + 1) 'x') with hm
  have hnotin : ∀ c : Char, c ∉ ("format" : String).data → c ≠ 'x' → c ∉ m.data := by
    intro c h1 h2 hmem
    rw [hm, String.data_append] at hmem
    rcases List.mem_append.mp hmem with h | h
    · exact h1 h
    · exact h2 (List.eq_of_mem_replicate h)
  have hp : jsIncludes m "private" = false :=
    jsIncludes_false_of_missing_char (c := 'p') (by decide)
      (hnotin 'p' (by decide) (by decide))
  have hu : jsIncludes m "unavailable" = false :=
    jsIncludes_false_of_missing_char (c := 'u') (by decide)
      (hnotin 'u' (by decide) (by decide))
  have hk : jsIncludes m "cookies" = false :=
    jsIncludes_false_of_missing_char (c := 'k') (by decide)
      (hnotin 'k' (by decide) (by decide))
  have ha : jsIncludes m "authentication" = false :=
    jsIncludes_false_of_missing_char (c := 'u') (by decide)
      (hnotin 'u' (by decide) (by decide))
  have hf : jsIncludes m "format" = true := by
    rw [hm]
    exact jsIncludes_append_right "format" (String.mk (List.replicate (B + 1) 'x'))
  have hval : catchResponse m = ⟨400, "No supported format available", none, some m⟩ := by
    unfold catchResponse
    rw [hp, hu, hk, ha, hf]
    rfl
  have hlen := hB m
  rw [hval] at hlen
  have hlen2 : m.data.length ≤ B := hlen
  have hmlen : m.data.length = 6 + (B + 1) := by
    rw [hm, String.data_append, List.length_append, List.length_replicate]
    rfl
  omega

/-- C7 (amended): only the generic 500 fallback of download.js caps the
detail string, to at most 100 characters; for the same message the 500
fallback of part_000 carries the full untruncated message, as does the 500
emitted by the download.js stream-error listener (the 400 `format` branch of
download.js is likewise uncapped, shown by the counterexample). -/
theorem c7_amended (msg : String)
    (hp : jsIncludes msg "private" = false)
    (hu : jsIncludes msg "unavailable" = false)
    (hk : jsIncludes msg "cookies" = false)
    (ha : jsIncludes msg "authentication" = false)
    (hf : jsIncludes msg "format" = false) :
    catchResponse msg
      = ⟨500, "Failed to process download request", none, some (jsSubstring 100 msg)⟩
    ∧ ((catchResponse msg).details.getD "").length ≤ 100
    ∧ catchResponseV2 msg
      = ⟨500, "Failed to process download request", none, some msg⟩
    ∧ (onStreamError false msg).bind JsonResponse.details = some msg := by
  have h1 : catchResponse msg
      = ⟨500, "Failed to process download request", none, some (jsSubstring 100 msg)⟩ := by
    unfold catchResponse
    rw [hp, hu, hk, ha, hf]
    rfl
  refine ⟨h1, ?_, ?_, rfl⟩
  · rw [h1]
    show (jsSubstring 100 msg).length ≤ 100
    unfold jsSubstring
    rw [String.length_mk]
    calc (msg.data.take 100).length = min 100 msg.data.length := List.length_take ..
      _ ≤ 100 := Nat.min_le_left ..
  · unfold catchResponseV2
    rw [hp, hu, hk]
    rfl

/-- A 120-character message hitting no classification substring. -/
def longMsg : String :=
  String.mk (List.replicate 120 'z')

/-- Witness for `c7_amended` at a concrete 120-character message: the
download.js fallback truncates it to 100 characters, part_000 sends it in
full. -/
theorem c7_witness :
    catchResponse longMsg
      = ⟨500, "Failed to process download request", none, some (jsSubstring 100 longMsg)⟩
    ∧ (jsSubstring 100 longMsg).length = 100
    ∧ catchResponseV2 longMsg
      = ⟨500, "Failed to process download request", none, some longMsg⟩
    ∧ longMsg.length = 120 :=
  ⟨(c7_amended longMsg (by decide) (by decide) (by decide) (by decide) (by decide)).1,
   by decide,
   (c7_amended longMsg (by decide) (by decide) (by decide) (by decide) (by decide)).2.2.1,
   by decide⟩

/-- Witness for `c8_confirmed` at a concrete error message. -/
theorem c8_witness :
    onStreamError true "socket hang up" = none
    ∧ (∃ r, onStreamError false "socket hang up" = some r ∧ r.status = 500) :=
  ⟨(c8_confirmed "socket hang up").1, (c8_confirmed "socket hang up").2.2.1⟩
